import Mathlib

/-!
Verification of the reactive simulation pipeline of `dash_sli` (`src/app.py`):
the SLI rabies model derivative `ode_sys`, the fixed time grid, the integrator
invocation and the figure assembly in the callback `gera_grafico`.

Real numbers of the Python program are embedded as rationals `ℚ`, so that
every definition is executable and decidable on concrete inputs.  Python's
float division raises `ZeroDivisionError` when the divisor is zero; the
embedding makes the derivative `Option`-valued and returns `none` exactly in
that case (the only division in the model is by the parameter `K`).
-/

namespace DashSli

/-- A state vector `(s, l, i)`: susceptible, latent, infectious densities. -/
abbrev StateV := ℚ × ℚ × ℚ

/-- The six rate parameters in the positional order `(a, beta, mu, alpha, sigma, K)`
of the Python signature `ode_sys(state, t, a, beta, mu, alpha, sigma, K)`. -/
abbrev Prms := ℚ × ℚ × ℚ × ℚ × ℚ × ℚ

/-- Embedding of `ode_sys` (src/app.py lines 161-166).  The local names
`ds_dt`, `di_dt`, `dl_dt` and the order of the returned list follow the
source verbatim (note the source's `di_dt` holds the latent expression and
`dl_dt` the infectious one; the returned order is positional).  Division by
`K = 0` raises in Python, embedded as `none`. -/
def ode_sys : StateV → ℚ → Prms → Option StateV
  | (s, l, i), _t, (a, beta, mu, alpha, sigma, K) =>
    if K = 0 then none
    else
      let ds_dt := (a-mu)*s-((a-mu)/K)*s*(s+i+l)-beta*s*i
      let di_dt := beta*s*i-(sigma+mu+((a-mu)/K)*(s+l+i))*l
      let dl_dt := sigma*l-(alpha+mu+((a-mu)/K)*(s+l+i))*i
      some (ds_dt, di_dt, dl_dt)

/-- The spec's derivative equations, written from the specification text
(§4.1) for comparison against `ode_sys`: with `N = S + L + I`,
`dS/dt = (a-mu)*S - ((a-mu)/K)*S*N - beta*S*I`,
`dL/dt = beta*S*I - (sigma+mu+((a-mu)/K)*N)*L`,
`dI/dt = sigma*L - (alpha+mu+((a-mu)/K)*N)*I`. -/
def specDerivative (s l i _t a beta mu alpha sigma K : ℚ) : StateV :=
  let N := s + l + i
  ((a-mu)*s - ((a-mu)/K)*s*N - beta*s*i,
   beta*s*i - (sigma+mu+((a-mu)/K)*N)*l,
   sigma*l - (alpha+mu+((a-mu)/K)*N)*i)

/-- `np.linspace a b n`: `n` evenly spaced points from `a` to `b` inclusive,
point `k` being `a + k*(b-a)/(n-1)`. -/
def linspace (a b : ℚ) (n : ℕ) : List ℚ :=
  (List.range n).map (fun k : ℕ => a + (k : ℚ) * (b - a) / ((n : ℚ) - 1))

/-- `t_begin = 0.` of `gera_grafico`. -/
def t_begin : ℚ := 0

/-- `t_end = 70.` of `gera_grafico`. -/
def t_end : ℚ := 70

/-- `t_nsamples = 10000` of `gera_grafico`. -/
def t_nsamples : ℕ := 10000

/-- The fixed time grid `t_eval = np.linspace(t_begin, t_end, t_nsamples)`
built by `gera_grafico`; a constant, independent of all parameter inputs. -/
def t_eval : List ℚ := linspace t_begin t_end t_nsamples

/-- Componentwise `y + h * d` on state vectors. -/
def stepAdd (y : StateV) (h : ℚ) (d : StateV) : StateV :=
  (y.1 + h * d.1, y.2.1 + h * d.2.1, y.2.2 + h * d.2.2)

/-- Modelled from the spec: the tail of the Integrator's dense output
(scipy.integrate.odeint is external library code, not part of this
repository).  §4.2: the Integrator evaluates the solution at exactly the
requested grid points, is deterministic, does not mutate its inputs, and a
fault raised by the derivative function aborts the whole invocation.  The
adaptive internal stepping is abstracted as one explicit step per grid
interval; the contract-level facts the claims use (one output row per grid
point, row 0 equal to the initial state, determinism, fault propagation)
hold of this model. -/
def odeintAux (f : StateV → ℚ → Prms → Option StateV) (y : StateV) (tprev : ℚ)
    (ts : List ℚ) (args : Prms) : Option (List StateV) :=
  match ts with
  | [] => some []
  | t :: rest =>
    match f y tprev args with
    | none => none
    | some d =>
      let y2 := stepAdd y (t - tprev) d
      match odeintAux f y2 t rest args with
      | none => none
      | some tail => some (y2 :: tail)

/-- Modelled from the spec: `scipy.integrate.odeint(func, y0, t, args)`.
Row 0 of the output is `y0` (the state at `t[0]`); each later grid point
gets one row.  An empty grid yields an empty trajectory. -/
def odeint (f : StateV → ℚ → Prms → Option StateV) (y0 : StateV)
    (ts : List ℚ) (args : Prms) : Option (List StateV) :=
  match ts with
  | [] => some []
  | t0 :: rest => (odeintAux f y0 t0 rest args).map (fun tail => y0 :: tail)

/-- One plotly scatter trace: x data, y data, series name and line style. -/
structure Trace where
  x : List ℚ
  y : List ℚ
  seriesName : String
  color : String
  width : ℚ
  dashStyle : Option String
  deriving DecidableEq

/-- The figure returned by `gera_grafico`: three traces plus layout titles. -/
structure Figure where
  traces : List Trace
  title : String
  xaxisTitle : String
  yaxisTitle : String
  deriving DecidableEq

/-- The initial state vector `y0=[s_init, i_init, l_init]` assembled by
`gera_grafico` (src/app.py line 184), in the source's own parameter names. -/
def gera_grafico_y0 (s_init i_init l_init : ℚ) : StateV :=
  (s_init, i_init, l_init)

/-- The `args=(a, beta, mu, alpha, sigma, K)` tuple passed by `gera_grafico`
to `odeint` (src/app.py line 186). -/
def gera_grafico_args (a beta mu alpha sigma K : ℚ) : Prms :=
  (a, beta, mu, alpha, sigma, K)

/-- Embedding of `gera_grafico` (src/app.py lines 178-198), with the
source's formal parameter order `(s_init, i_init, l_init, a, beta, mu,
alpha, sigma, K)`.  `s,l,i = sol.T` takes the three columns of the solution;
the three traces and the layout titles follow the source verbatim.  A fault
inside the integration propagates as `none` (the callback raises). -/
def gera_grafico (s_init i_init l_init a beta mu alpha sigma K : ℚ) :
    Option Figure :=
  match odeint ode_sys (gera_grafico_y0 s_init i_init l_init) t_eval
      (gera_grafico_args a beta mu alpha sigma K) with
  | none => none
  | some sol =>
    let s := sol.map (fun st => st.1)
    let l := sol.map (fun st => st.2.1)
    let i := sol.map (fun st => st.2.2)
    some { traces := [⟨t_eval, s, "Suscetível", "#00b400", 4, none⟩,
                      ⟨t_eval, l, "Latente", "#ff0000", 4, some "dot"⟩,
                      ⟨t_eval, i, "Infectado", "#0000ff", 4, some "dashdot"⟩],
           title := "Dinâmica Modelo SLI",
           xaxisTitle := "Tempo (anos)",
           yaxisTitle := "Indivíduos" }

/-- The Dash callback wiring (src/app.py lines 168-177): Dash invokes the
callback with the slider values in the order of the `Input` declarations —
`s_init, l_init, i_init, a, beta, mu, alpha, sigma, K` — bound positionally
to `gera_grafico`'s formal parameters, whose second and third names are
swapped (`i_init` receives the latent slider, `l_init` the infectious one). -/
def population_chart_callback (s_slider l_slider i_slider a beta mu alpha
    sigma K : ℚ) : Option Figure :=
  gera_grafico s_slider l_slider i_slider a beta mu alpha sigma K

/-- The nine scalar UI inputs, in slider (Input declaration) order. -/
structure Inputs where
  s_slider : ℚ
  l_slider : ℚ
  i_slider : ℚ
  a : ℚ
  beta : ℚ
  mu : ℚ
  alpha : ℚ
  sigma : ℚ
  K : ℚ
  deriving DecidableEq

/-- One orchestrator invocation on a complete parameter set. -/
def run (p : Inputs) : Option Figure :=
  population_chart_callback p.s_slider p.l_slider p.i_slider p.a p.beta
    p.mu p.alpha p.sigma p.K

/-- The default parameter set of the sliders. -/
def defaultInputs : Inputs :=
  ⟨5/2, 1/10, 1/10, 1, 77, 1/2, 73, 13, 2⟩

/-- Helper: `ode_sys` agrees with the spec's equations whenever `K ≠ 0`. -/
theorem ode_sys_eq_spec (s l i t a beta mu alpha sigma K : ℚ) (hK : K ≠ 0) :
    ode_sys (s, l, i) t (a, beta, mu, alpha, sigma, K) =
      some (specDerivative s l i t a beta mu alpha sigma K) := by
  simp only [ode_sys, specDerivative, if_neg hK, Option.some.injEq,
    Prod.mk.injEq]
  ring_nf
  exact ⟨trivial, trivial⟩

/-- Helper: `ode_sys` evaluates to `some` value whenever `K ≠ 0`. -/
theorem ode_sys_isSome (a beta mu alpha sigma K : ℚ) (hK : K ≠ 0)
    (y : StateV) (t : ℚ) :
    (ode_sys y t (a, beta, mu, alpha, sigma, K)).isSome := by
  obtain ⟨s, l, i⟩ := y
  simp [ode_sys, hK]

/-- Helper: a totally defined derivative yields a trajectory tail with one
entry per remaining grid point. -/
theorem odeintAux_total (f : StateV → ℚ → Prms → Option StateV) (args : Prms)
    (hf : ∀ y t, (f y t args).isSome) :
    ∀ (ts : List ℚ) (y : StateV) (tprev : ℚ),
      ∃ tr, odeintAux f y tprev ts args = some tr ∧ tr.length = ts.length := by
  intro ts
  induction ts with
  | nil => exact fun y tprev => ⟨[], rfl, rfl⟩
  | cons t rest ih =>
    intro y tprev
    obtain ⟨d, hd⟩ := Option.isSome_iff_exists.mp (hf y tprev)
    obtain ⟨tail, htail, hlen⟩ := ih (stepAdd y (t - tprev) d) t
    exact ⟨stepAdd y (t - tprev) d :: tail, by simp [odeintAux, hd, htail],
      by simp [hlen]⟩

/-- Helper: on a nonempty grid, a totally defined derivative yields a
trajectory whose first row is the initial state and whose length matches
the grid. -/
theorem odeint_total (f : StateV → ℚ → Prms → Option StateV) (args : Prms)
    (hf : ∀ y t, (f y t args).isSome) (y0 : StateV) (t0 : ℚ)
    (rest : List ℚ) :
    ∃ tail, odeint f y0 (t0 :: rest) args = some (y0 :: tail) ∧
      tail.length = rest.length := by
  obtain ⟨tail, h, hlen⟩ := odeintAux_total f args hf rest y0 t0
  exact ⟨tail, by simp [odeint, h], hlen⟩

/-- Helper: the fixed grid in closed form, point `k` being `k·70/9999`. -/
theorem t_eval_closed_form :
    t_eval = (List.range 10000).map (fun k : ℕ => (k : ℚ) * 70 / 9999) := by
  unfold t_eval linspace t_begin t_end t_nsamples
  congr 1
  funext k
  norm_num

/-- Helper: the fixed grid has exactly 10000 points. -/
theorem t_eval_length : t_eval.length = 10000 := by
  rw [t_eval_closed_form, List.length_map, List.length_range]

/-- Helper: the fixed grid has at least two points. -/
theorem t_eval_two_cons : ∃ t0 t1 rest, t_eval = t0 :: t1 :: rest := by
  have h := t_eval_length
  have h1 : t_eval ≠ [] := by
    intro hnil; rw [hnil] at h; simp at h
  obtain ⟨t0, l1, h0⟩ := List.exists_cons_of_ne_nil h1
  have h2 : l1 ≠ [] := by
    intro hnil; rw [h0, hnil] at h; simp at h
  obtain ⟨t1, rest, h3⟩ := List.exists_cons_of_ne_nil h2
  exact ⟨t0, t1, rest, by rw [h0, h3]⟩

/-- Helper: reduction of `gera_grafico` on a successful integration. -/
theorem gera_grafico_eq_of_odeint (s_init i_init l_init a beta mu alpha
    sigma K : ℚ) (sol : List StateV)
    (h : odeint ode_sys (gera_grafico_y0 s_init i_init l_init) t_eval
        (gera_grafico_args a beta mu alpha sigma K) = some sol) :
    gera_grafico s_init i_init l_init a beta mu alpha sigma K =
      some { traces := [⟨t_eval, sol.map (fun st => st.1), "Suscetível",
                          "#00b400", 4, none⟩,
                        ⟨t_eval, sol.map (fun st => st.2.1), "Latente",
                          "#ff0000", 4, some "dot"⟩,
                        ⟨t_eval, sol.map (fun st => st.2.2), "Infectado",
                          "#0000ff", 4, some "dashdot"⟩],
             title := "Dinâmica Modelo SLI",
             xaxisTitle := "Tempo (anos)",
             yaxisTitle := "Indivíduos" } := by
  unfold gera_grafico
  rw [h]

/-- Helper: reduction of `gera_grafico` on a failed integration. -/
theorem gera_grafico_none_of_odeint (s_init i_init l_init a beta mu alpha
    sigma K : ℚ)
    (h : odeint ode_sys (gera_grafico_y0 s_init i_init l_init) t_eval
        (gera_grafico_args a beta mu alpha sigma K) = none) :
    gera_grafico s_init i_init l_init a beta mu alpha sigma K = none := by
  unfold gera_grafico
  rw [h]

/-- `C1`: for every state `(S, L, I)`, every time `t` and every parameter
set with `K ≠ 0`, `ode_sys` returns exactly the triple
`(dS/dt, dL/dt, dI/dt)` of the spec equations with `N = S + L + I`, in that
positional order. -/
theorem ode_sys_matches_spec_equations (s l i t a beta mu alpha sigma K : ℚ)
    (hK : K ≠ 0) :
    ode_sys (s, l, i) t (a, beta, mu, alpha, sigma, K) =
      some (specDerivative s l i t a beta mu alpha sigma K) :=
  ode_sys_eq_spec s l i t a beta mu alpha sigma K hK

/-- Witness for `C1` at a concrete input with `K = 2 ≠ 0`. -/
theorem ode_sys_matches_spec_equations_witness :
    (2 : ℚ) ≠ 0 ∧
      ode_sys (3, 1, 1) 0 (1, 77, 1/2, 73, 13, 2) =
        some (specDerivative 3 1 1 0 1 77 (1/2) 73 13 2) :=
  ⟨by decide, ode_sys_matches_spec_equations 3 1 1 0 1 77 (1/2) 73 13 2
    (by decide)⟩

/-- `C2`: the callback hands the Integrator the initial state vector
`(s_slider, l_slider, i_slider)` — the susceptible input in position `S`,
the latent input in position `L`, the infectious input in position `I` —
and accordingly each returned series starts at its own slider's value. -/
theorem callback_initial_state_binding (sv lv iv a beta mu alpha sigma K : ℚ)
    (hK : K ≠ 0) :
    ∃ sol fig,
      odeint ode_sys (sv, lv, iv) t_eval
          (gera_grafico_args a beta mu alpha sigma K) = some sol ∧
      population_chart_callback sv lv iv a beta mu alpha sigma K = some fig ∧
      sol.head? = some (sv, lv, iv) ∧
      fig.traces.map (fun tr => tr.y.head?) = [some sv, some lv, some iv] := by
  obtain ⟨t0, t1, rest, ht⟩ := t_eval_two_cons
  obtain ⟨tail, hsol, -⟩ :=
    odeint_total ode_sys (gera_grafico_args a beta mu alpha sigma K)
      (fun y t => ode_sys_isSome a beta mu alpha sigma K hK y t)
      (sv, lv, iv) t0 (t1 :: rest)
  have hsol2 : odeint ode_sys (sv, lv, iv) t_eval
      (gera_grafico_args a beta mu alpha sigma K) =
      some ((sv, lv, iv) :: tail) := by
    rw [ht]; exact hsol
  have hfig := gera_grafico_eq_of_odeint sv lv iv a beta mu alpha sigma K
    ((sv, lv, iv) :: tail) hsol2
  exact ⟨(sv, lv, iv) :: tail, _, hsol2, hfig, rfl, by simp⟩

/-- Witness for `C2` at the default slider values, `K = 2 ≠ 0`. -/
theorem callback_initial_state_binding_witness :
    (2 : ℚ) ≠ 0 ∧
      (∃ sol fig,
        odeint ode_sys (5/2, 1/10, 1/10) t_eval
            (gera_grafico_args 1 77 (1/2) 73 13 2) = some sol ∧
        population_chart_callback (5/2) (1/10) (1/10)
          1 77 (1/2) 73 13 2 = some fig ∧
        sol.head? = some (5/2, 1/10, 1/10) ∧
        fig.traces.map (fun tr => tr.y.head?) =
          [some (5/2), some (1/10), some (1/10)]) :=
  ⟨by decide, callback_initial_state_binding (5/2) (1/10) (1/10)
    1 77 (1/2) 73 13 2 (by decide)⟩

/-- `C3`: the `args` tuple the orchestrator passes to the Integrator binds
the six rates in positional order `(a, beta, mu, alpha, sigma, K)`, so the
derivative evaluated inside the run gives each UI rate its equation role of
the same name. -/
theorem callback_rate_binding (a beta mu alpha sigma K : ℚ) (hK : K ≠ 0)
    (s l i t : ℚ) :
    ode_sys (s, l, i) t (gera_grafico_args a beta mu alpha sigma K) =
      some (specDerivative s l i t a beta mu alpha sigma K) :=
  ode_sys_eq_spec s l i t a beta mu alpha sigma K hK

/-- Witness for `C3` at a concrete input with `K = 5 ≠ 0`. -/
theorem callback_rate_binding_witness :
    (5 : ℚ) ≠ 0 ∧
      ode_sys (1, 2, 3) 4 (gera_grafico_args 6 7 8 9 10 5) =
        some (specDerivative 1 2 3 4 6 7 8 9 10 5) :=
  ⟨by decide, callback_rate_binding 6 7 8 9 10 5 (by decide) 1 2 3 4⟩

/-- `C5`: the orchestrator is a deterministic function of its nine inputs;
two invocations on equal parameter sets return equal figures (the embedding
of `gera_grafico` reads no state besides its arguments). -/
theorem run_deterministic (p q : Inputs) (h : p = q) : run p = run q :=
  congrArg run h

/-- Witness for `C5` at the default parameter set. -/
theorem run_deterministic_witness :
    defaultInputs = defaultInputs ∧ run defaultInputs = run defaultInputs :=
  ⟨rfl, run_deterministic defaultInputs defaultInputs rfl⟩

/-- `C6`: for every state — negative components included — every time and
every parameter set with `K ≠ 0`, `ode_sys` evaluates totally to a value
(the division by `K` is the only partial operation; the embedding is a pure
function of its arguments, so it has no side effects). -/
theorem ode_sys_total_on_all_states (s l i t a beta mu alpha sigma K : ℚ)
    (hK : K ≠ 0) :
    ∃ d, ode_sys (s, l, i) t (a, beta, mu, alpha, sigma, K) = some d :=
  Option.isSome_iff_exists.mp (ode_sys_isSome a beta mu alpha sigma K hK
    (s, l, i) t)

/-- Witness for `C6` at a state with all components negative, `K = 2 ≠ 0`. -/
theorem ode_sys_total_on_all_states_witness :
    (2 : ℚ) ≠ 0 ∧
      ∃ d, ode_sys (-1, -2, -3) (-5) (1, 77, 1/2, 73, 13, 2) = some d :=
  ⟨by decide, ode_sys_total_on_all_states (-1) (-2) (-3) (-5)
    1 77 (1/2) 73 13 2 (by decide)⟩

/-- `C7`: `ode_sys` is autonomous — its time argument never influences the
result, for any state and any parameter tuple. -/
theorem ode_sys_autonomous (y : StateV) (prms : Prms) (t1 t2 : ℚ) :
    ode_sys y t1 prms = ode_sys y t2 prms := by
  obtain ⟨s, l, i⟩ := y
  obtain ⟨a, beta, mu, alpha, sigma, K⟩ := prms
  rfl

/-- `C10`: the disease-free subspace `L = I = 0` is invariant: there the
latent and infectious derivative components vanish and the susceptible one
follows the logistic law `(a-mu)*S*(1 - S/K)`. -/
theorem ode_sys_disease_free_invariant (s t a beta mu alpha sigma K : ℚ)
    (hK : K ≠ 0) :
    ode_sys (s, 0, 0) t (a, beta, mu, alpha, sigma, K) =
      some ((a - mu) * s * (1 - s / K), 0, 0) := by
  simp only [ode_sys, if_neg hK, Option.some.injEq, Prod.mk.injEq]
  refine ⟨by ring, by ring, by ring⟩

/-- Witness for `C10` at a concrete input with `K = 3 ≠ 0`. -/
theorem ode_sys_disease_free_invariant_witness :
    (3 : ℚ) ≠ 0 ∧
      ode_sys (4, 0, 0) 1 (2, 5, 1, 7, 9, 3) =
        some ((2 - 1) * 4 * (1 - 4 / 3), 0, 0) :=
  ⟨by decide, ode_sys_disease_free_invariant 4 1 2 5 1 7 9 3 (by decide)⟩

/-- `C4`: the time grid is the constant `t_eval` — 10000 evenly spaced
points `k·70/9999` from `0` to `70`, independent of the inputs — and on a
run with `K ≠ 0` every one of the three series has exactly 10000 points and
carries exactly this grid as its x data. -/
theorem run_fixed_grid_and_lengths (p : Inputs) (hK : p.K ≠ 0) :
    t_eval = (List.range 10000).map (fun k : ℕ => (k : ℚ) * 70 / 9999) ∧
    ∃ fig, run p = some fig ∧
      fig.traces.map (fun tr => tr.x) = [t_eval, t_eval, t_eval] ∧
      fig.traces.map (fun tr => tr.y.length) = [10000, 10000, 10000] := by
  refine ⟨t_eval_closed_form, ?_⟩
  obtain ⟨t0, t1, rest, ht⟩ := t_eval_two_cons
  obtain ⟨tail, hsol, hlen⟩ :=
    odeint_total ode_sys
      (gera_grafico_args p.a p.beta p.mu p.alpha p.sigma p.K)
      (fun y t => ode_sys_isSome p.a p.beta p.mu p.alpha p.sigma p.K hK y t)
      (p.s_slider, p.l_slider, p.i_slider) t0 (t1 :: rest)
  have hsol2 : odeint ode_sys (p.s_slider, p.l_slider, p.i_slider) t_eval
      (gera_grafico_args p.a p.beta p.mu p.alpha p.sigma p.K) =
      some ((p.s_slider, p.l_slider, p.i_slider) :: tail) := by
    rw [ht]; exact hsol
  have hfig := gera_grafico_eq_of_odeint p.s_slider p.l_slider p.i_slider
    p.a p.beta p.mu p.alpha p.sigma p.K
    ((p.s_slider, p.l_slider, p.i_slider) :: tail) hsol2
  have hgrid : (t0 :: t1 :: rest).length = 10000 := by
    rw [← ht]; exact t_eval_length
  have htail : tail.length = 9999 := by
    simp only [List.length_cons] at hgrid hlen
    omega
  exact ⟨_, hfig, by simp, by simp [htail]⟩

/-- Witness for `C4` at the default parameter set, `K = 2 ≠ 0`. -/
theorem run_fixed_grid_and_lengths_witness :
    defaultInputs.K ≠ 0 ∧
      (t_eval = (List.range 10000).map (fun k : ℕ => (k : ℚ) * 70 / 9999) ∧
      ∃ fig, run defaultInputs = some fig ∧
        fig.traces.map (fun tr => tr.x) = [t_eval, t_eval, t_eval] ∧
        fig.traces.map (fun tr => tr.y.length) = [10000, 10000, 10000]) :=
  ⟨by decide, run_fixed_grid_and_lengths defaultInputs (by decide)⟩

/-- `C8`: a run with `K ≠ 0` splits the trajectory columnwise into the
series named "Suscetível", "Latente" and "Infectado", with their fixed
colors and line styles, and sets the axis titles "Tempo (anos)" and
"Indivíduos" and the fixed chart title. -/
theorem run_display_metadata (p : Inputs) (hK : p.K ≠ 0) :
    ∃ sol fig,
      odeint ode_sys (p.s_slider, p.l_slider, p.i_slider) t_eval
          (gera_grafico_args p.a p.beta p.mu p.alpha p.sigma p.K) =
        some sol ∧
      run p = some fig ∧
      fig.traces.map (fun tr => tr.seriesName) =
        ["Suscetível", "Latente", "Infectado"] ∧
      fig.traces.map (fun tr => tr.color) =
        ["#00b400", "#ff0000", "#0000ff"] ∧
      fig.traces.map (fun tr => tr.dashStyle) =
        [none, some "dot", some "dashdot"] ∧
      fig.traces.map (fun tr => tr.y) =
        [sol.map (fun st => st.1), sol.map (fun st => st.2.1),
         sol.map (fun st => st.2.2)] ∧
      fig.title = "Dinâmica Modelo SLI" ∧
      fig.xaxisTitle = "Tempo (anos)" ∧
      fig.yaxisTitle = "Indivíduos" := by
  obtain ⟨t0, t1, rest, ht⟩ := t_eval_two_cons
  obtain ⟨tail, hsol, -⟩ :=
    odeint_total ode_sys
      (gera_grafico_args p.a p.beta p.mu p.alpha p.sigma p.K)
      (fun y t => ode_sys_isSome p.a p.beta p.mu p.alpha p.sigma p.K hK y t)
      (p.s_slider, p.l_slider, p.i_slider) t0 (t1 :: rest)
  have hsol2 : odeint ode_sys (p.s_slider, p.l_slider, p.i_slider) t_eval
      (gera_grafico_args p.a p.beta p.mu p.alpha p.sigma p.K) =
      some ((p.s_slider, p.l_slider, p.i_slider) :: tail) := by
    rw [ht]; exact hsol
  have hfig := gera_grafico_eq_of_odeint p.s_slider p.l_slider p.i_slider
    p.a p.beta p.mu p.alpha p.sigma p.K
    ((p.s_slider, p.l_slider, p.i_slider) :: tail) hsol2
  exact ⟨_, _, hsol2, hfig, rfl, rfl, rfl, rfl, rfl, rfl, rfl⟩

/-- Witness for `C8` at a non-default parameter set with `K = 1 ≠ 0`. -/
theorem run_display_metadata_witness :
    (Inputs.mk 1 0 (1/10) 1 60 (1/2) 50 3 1).K ≠ 0 ∧
      (∃ sol fig,
        odeint ode_sys
            ((Inputs.mk 1 0 (1/10) 1 60 (1/2) 50 3 1).s_slider,
             (Inputs.mk 1 0 (1/10) 1 60 (1/2) 50 3 1).l_slider,
             (Inputs.mk 1 0 (1/10) 1 60 (1/2) 50 3 1).i_slider) t_eval
            (gera_grafico_args (Inputs.mk 1 0 (1/10) 1 60 (1/2) 50 3 1).a
              (Inputs.mk 1 0 (1/10) 1 60 (1/2) 50 3 1).beta
              (Inputs.mk 1 0 (1/10) 1 60 (1/2) 50 3 1).mu
              (Inputs.mk 1 0 (1/10) 1 60 (1/2) 50 3 1).alpha
              (Inputs.mk 1 0 (1/10) 1 60 (1/2) 50 3 1).sigma
              (Inputs.mk 1 0 (1/10) 1 60 (1/2) 50 3 1).K) = some sol ∧
        run (Inputs.mk 1 0 (1/10) 1 60 (1/2) 50 3 1) = some fig ∧
        fig.traces.map (fun tr => tr.seriesName) =
          ["Suscetível", "Latente", "Infectado"] ∧
        fig.traces.map (fun tr => tr.color) =
          ["#00b400", "#ff0000", "#0000ff"] ∧
        fig.traces.map (fun tr => tr.dashStyle) =
          [none, some "dot", some "dashdot"] ∧
        fig.traces.map (fun tr => tr.y) =
          [sol.map (fun st => st.1), sol.map (fun st => st.2.1),
           sol.map (fun st => st.2.2)] ∧
        fig.title = "Dinâmica Modelo SLI" ∧
        fig.xaxisTitle = "Tempo (anos)" ∧
        fig.yaxisTitle = "Indivíduos") :=
  ⟨by decide, run_display_metadata (Inputs.mk 1 0 (1/10) 1 60 (1/2) 50 3 1)
    (by decide)⟩

/-- `C9`: no parameter-domain validation happens anywhere before
integration: with `K = 0` every evaluation of the derivative is a division
fault, and the whole run aborts with that fault (`none`) instead of any
structured error value. -/
theorem no_domain_validation_division_fault (p : Inputs) (hK : p.K = 0) :
    (∀ y t, ode_sys y t
        (gera_grafico_args p.a p.beta p.mu p.alpha p.sigma p.K) = none) ∧
    run p = none := by
  have hode : ∀ y t, ode_sys y t
      (gera_grafico_args p.a p.beta p.mu p.alpha p.sigma p.K) = none := by
    intro y t
    obtain ⟨s, l, i⟩ := y
    simp [ode_sys, gera_grafico_args, hK]
  refine ⟨hode, ?_⟩
  obtain ⟨t0, t1, rest, ht⟩ := t_eval_two_cons
  have hnone : odeint ode_sys
      (gera_grafico_y0 p.s_slider p.l_slider p.i_slider) t_eval
      (gera_grafico_args p.a p.beta p.mu p.alpha p.sigma p.K) = none := by
    rw [ht]
    simp [odeint, odeintAux, hode]
  exact gera_grafico_none_of_odeint p.s_slider p.l_slider p.i_slider
    p.a p.beta p.mu p.alpha p.sigma p.K hnone

/-- Witness for `C9` at the default rates but `K = 0`. -/
theorem no_domain_validation_division_fault_witness :
    (Inputs.mk (5/2) (1/10) (1/10) 1 77 (1/2) 73 13 0).K = 0 ∧
      ((∀ y t, ode_sys y t
          (gera_grafico_args (Inputs.mk (5/2) (1/10) (1/10) 1 77 (1/2) 73 13 0).a
            (Inputs.mk (5/2) (1/10) (1/10) 1 77 (1/2) 73 13 0).beta
            (Inputs.mk (5/2) (1/10) (1/10) 1 77 (1/2) 73 13 0).mu
            (Inputs.mk (5/2) (1/10) (1/10) 1 77 (1/2) 73 13 0).alpha
            (Inputs.mk (5/2) (1/10) (1/10) 1 77 (1/2) 73 13 0).sigma
            (Inputs.mk (5/2) (1/10) (1/10) 1 77 (1/2) 73 13 0).K) = none) ∧
      run (Inputs.mk (5/2) (1/10) (1/10) 1 77 (1/2) 73 13 0) = none) :=
  ⟨by decide, no_domain_validation_division_fault
    (Inputs.mk (5/2) (1/10) (1/10) 1 77 (1/2) 73 13 0) (by decide)⟩

end DashSli
